import Mathlib

/-
Shallow embedding of the call-session orchestrator of this repository
(src/voicebot/app/main.py and src/voicebot/services/stt_translate.py) together
with the routing/chat helpers it consumes. External collaborators (STT,
routing, dialogue, translation, synthesis, database) are modelled by their
observable outcomes, passed in as parameters of each turn; the persistent
call-record row is modelled as an explicit record threaded through the
functions.
-/

set_option autoImplicit false
set_option linter.unusedVariables false

namespace VoiceBot

/-! ### Character-level text utilities (stt_translate.py lines 361-366, str.strip) -/

/-- The whitespace class used by the Python regex class for whitespace and by
str.strip, restricted to its ASCII members. -/
def isWs (c : Char) : Bool :=
  c == ' ' || c == '\t' || c == '\n' || c == '\r' || c == '\x0b' || c == '\x0c'

/-- True for the question-mark and exclamation-mark characters removed by the
first cleaning regex. -/
def isPunctQB (c : Char) : Bool :=
  c == '?' || c == '!'

/-- Removing every run of question or exclamation marks is the same as
removing each such character. -/
def removeQB (l : List Char) : List Char :=
  l.filter (fun c => !isPunctQB c)

/-- Worker for whitespace collapsing: a run of whitespace becomes one space.
The flag records whether the previous kept position was inside a run. -/
def collapseAux : Bool → List Char → List Char
  | _, [] => []
  | prevWs, c :: cs =>
    if isWs c then
      if prevWs then collapseAux true cs else ' ' :: collapseAux true cs
    else c :: collapseAux false cs

/-- Replace each maximal whitespace run by a single space character. -/
def collapseWs (l : List Char) : List Char :=
  collapseAux false l

/-- Drop the longest suffix whose characters all satisfy the predicate. -/
def dropLastWhile (p : Char → Bool) : List Char → List Char
  | [] => []
  | a :: t =>
    let r := dropLastWhile p t
    if r.isEmpty then (if p a then [] else [a]) else a :: r

/-- Remove leading and trailing whitespace, as Python str.strip does. -/
def stripChars (l : List Char) : List Char :=
  dropLastWhile isWs (l.dropWhile isWs)

/-- Python str.strip on strings. -/
def stripStr (s : String) : String :=
  String.mk (stripChars s.data)

/-- Python str.lower, restricted to the ASCII case mapping. -/
def lowerStr (s : String) : String :=
  String.mk (s.data.map Char.toLower)

/-- The text-cleaning sequence applied before speech synthesis: remove runs of
question and exclamation marks, collapse whitespace runs to single spaces,
trim both ends. -/
def cleanData (l : List Char) : List Char :=
  stripChars (collapseWs (removeQB l))

/-- Embeds stt_translate.py lines 362-365: the variable text_for_tts starts as
the translated response and, when non-empty, has the two cleaning regexes and
a strip applied. -/
def clean_text_for_tts (s : String) : String :=
  if s = "" then s else String.mk (cleanData s.data)

/-! ### Substring search (used to state that a prompt contains a phrase) -/

/-- The needle (second argument) occurs at the start of the haystack. -/
def matchesAt : List Char → List Char → Bool
  | _, [] => true
  | [], _ :: _ => false
  | a :: as, b :: bs => a == b && matchesAt as bs

/-- The needle occurs somewhere inside the haystack. -/
def hasSub : List Char → List Char → Bool
  | [], needle => matchesAt [] needle
  | a :: t, needle => matchesAt (a :: t) needle || hasSub t needle

/-- String containment test. -/
def containsStr (hay needle : String) : Bool :=
  hasSub hay.data needle.data

/-! ### Prompts and labels (main.py lines 60-83, stt_translate.py lines 46-71) -/

/-- main.py INITIAL_SYSTEM_PROMPT (the adjacent Python literals joined). -/
def INITIAL_SYSTEM_PROMPT : String :=
  "You are an AI assistant in a real-time emergency call center in Kerala, India. "
  ++ "Your FIRST task is to calmly ask the caller for their name. "
  ++ "Say EXACTLY this: \"This is the emergency line. Could I please get your name?\" "
  ++ "Do not ask any other questions or add any other text in this first turn. "
  ++ "Wait for their response."

/-- main.py STANDARD_SYSTEM_PROMPT. -/
def STANDARD_SYSTEM_PROMPT : String :=
  "You are an AI assistant in a real-time emergency call center in Kerala, India. "
  ++ "Speak calmly, ask only one question at a time, and never refer them to 911. "
  ++ "Never redirect to any other service. Always remain the official emergency contact. "
  ++ "The user may have already provided their name."

/-- main.py NON_SPECIFIC_ROUTING_LABELS. -/
def NON_SPECIFIC_ROUTING_LABELS : List String :=
  ["Unknown", "General Inquiry"]

/-- main.py lines 75-83: the confirmation system prompt built around the
templated confirmation phrase. -/
def create_confirmation_system_prompt (department_name : String) : String :=
  "You are an AI assistant in a real-time emergency call center in Kerala, India.\n"
  ++ "A specific department has been identified for this user\x27s issue: "
  ++ department_name ++ ".\n"
  ++ "Your primary task now is to FIRST acknowledge this and give the confirmation. State clearly: \""
  ++ ("Understood. I am recording the details for the " ++ department_name
      ++ ". Please be assured that someone from that department will contact you shortly.")
  ++ "\"\n"
  ++ "AFTER giving that exact confirmation, you MUST then ask the NEXT single, most important question calmly to gather necessary details. Do not ask multiple questions.\n"
  ++ "Speak calmly. Never refer them to 911 or other services. Always remain the official emergency contact."

/-- stt_translate.py lines 63-71: same prompt with an extra parenthetical in
the follow-up instruction. -/
def create_confirmation_system_prompt_stt (department_name : String) : String :=
  "You are an AI assistant in a real-time emergency call center in Kerala, India.\n"
  ++ "A specific department has been identified for this user\x27s issue: "
  ++ department_name ++ ".\n"
  ++ "Your primary task now is to FIRST acknowledge this and give the confirmation. State clearly: \""
  ++ ("Understood. I am recording the details for the " ++ department_name
      ++ ". Please be assured that someone from that department will contact you shortly.")
  ++ "\"\n"
  ++ "AFTER giving that exact confirmation, you MUST then ask the NEXT single, most important question calmly to gather necessary details (like location, number of people, current status etc.). Do not ask multiple questions.\n"
  ++ "Speak calmly. Never refer them to 911 or other services. Always remain the official emergency contact."

/-- The fixed apology fallback substituted when the dialogue call fails
(main.py line 565, stt_translate.py line 342). -/
def APOLOGY_FALLBACK : String :=
  "I apologize, I encountered a problem. Could you please repeat?"

/-- The websocket target language constant (main.py line 437). -/
def TARGET_LANGUAGE_CODE : String := "ml-IN"

/-- Emotion labels accepted by the emotion-detection validation
(main.py line 361, response.py line 131). -/
def validEmotions : List String :=
  ["calm", "confused", "urgent", "panicked", "scared", "distressed",
   "angry", "hopeless", "sad", "uncertain"]

/-! ### Persistent call row and partial updates (main.py lines 216-240) -/

/-- One row of the active_calls table, as touched by the orchestrator.
Timestamps are abstract ticks. -/
structure CallRow where
  caller_name : String
  caller_number : Option String
  location : String
  status : String
  routing_label : String
  priority : String
  detected_language : Option String
  last_transcript : String
  confirmation_given : Bool
  handled_by : String
  start_time : Nat
  last_update_time : Nat
deriving DecidableEq

/-- One key-value pair of the data_to_update dictionary passed to
update_call_data. -/
inductive FieldVal where
  | statusF (v : String)
  | caller_nameF (v : String)
  | routing_labelF (v : String)
  | confirmation_givenF (v : Bool)
  | handled_byF (v : String)
  | last_transcriptF (v : String)
  | detected_languageF (v : String)
deriving DecidableEq

/-- Apply one SET clause to the row. -/
def applyField (r : CallRow) : FieldVal → CallRow
  | .statusF v => { r with status := v }
  | .caller_nameF v => { r with caller_name := v }
  | .routing_labelF v => { r with routing_label := v }
  | .confirmation_givenF v => { r with confirmation_given := v }
  | .handled_byF v => { r with handled_by := v }
  | .last_transcriptF v => { r with last_transcript := v }
  | .detected_languageF v => { r with detected_language := some v }

/-- Apply every SET clause of one UPDATE statement. -/
def applyFields (fields : List FieldVal) (r : CallRow) : CallRow :=
  fields.foldl applyField r

/-- Embeds update_call_data (main.py lines 216-240): returns unchanged when
the pool is unavailable or the field dictionary is empty; otherwise adds the
last_update_time stamp to the dictionary and runs one UPDATE, which leaves
the row unchanged if the write raises (the exception is caught and logged). -/
def update_call_data (db_available write_ok : Bool) (now : Nat)
    (data_to_update : List FieldVal) (row : CallRow) : CallRow :=
  if !db_available || data_to_update.isEmpty then row
  else if !write_ok then row
  else { applyFields data_to_update row with last_update_time := now }

/-- The fresh row inserted for a new session_id (main.py lines 405-424,
INSERT branch; timestamp columns take their defaults). -/
def freshRow (now : Nat) : CallRow :=
  { caller_name := "Unknown", caller_number := none, location := "Unknown",
    status := "Active", routing_label := "Unknown", priority := "Normal",
    detected_language := none, last_transcript := "",
    confirmation_given := false, handled_by := "AI",
    start_time := now, last_update_time := now }

/-- Embeds the INSERT ... ON CONFLICT DO UPDATE statement run on every new
websocket connection (main.py lines 405-424): a missing row is inserted
fresh; an existing row is reset to the freshly-Active state, re-arming
start_time only when the stored status was not Active. -/
def initUpsert (now : Nat) : Option CallRow → CallRow
  | none => freshRow now
  | some row =>
      { row with
        status := "Active",
        start_time := if row.status ≠ "Active" then now else row.start_time,
        last_update_time := now,
        caller_name := "Unknown", caller_number := none, location := "Unknown",
        routing_label := "Unknown", priority := "Normal",
        detected_language := none,
        confirmation_given := false, handled_by := "AI" }

/-- Embeds takeover_call_endpoint (main.py lines 681-705): 404 when the
session row does not exist (fetchval returned a falsy value), 400 when its
status is not Active, otherwise one partial update setting handled_by. -/
def takeover_call_endpoint (store : Option CallRow) (now : Nat) :
    Except Nat CallRow :=
  match store with
  | none => .error 404
  | some row =>
    if row.status = "" then .error 404
    else if row.status ≠ "Active" then .error 400
    else .ok (update_call_data true true now [.handled_byF "Human"] row)

/-! ### Dialogue phase resolution -/

/-- One conversation message, role "user" or "assistant". -/
structure ChatMsg where
  role : String
  content : String
deriving DecidableEq

/-- Embeds the system-prompt determination of main.py lines 536-548. Input:
caller_name_known, awaiting_name and confirmation_given_this_session as
currently held by the handler, and the routing label of this turn. Output:
the chosen system prompt and the updated awaiting_name and
confirmation_given_this_session flags. The middle condition mirrors the
Python truthiness test: predicted_label and predicted_label not in
NON_SPECIFIC_ROUTING_LABELS. -/
def resolvePromptMain (caller_name_known awaiting_name confirmation_given : Bool)
    (predicted_label : String) : String × Bool × Bool :=
  if caller_name_known = false then
    (INITIAL_SYSTEM_PROMPT, true, confirmation_given)
  else if predicted_label ≠ "" ∧ predicted_label ∉ NON_SPECIFIC_ROUTING_LABELS
      ∧ confirmation_given = false then
    (create_confirmation_system_prompt predicted_label, awaiting_name, true)
  else
    (STANDARD_SYSTEM_PROMPT, awaiting_name, confirmation_given)

/-- Embeds the system-prompt determination of stt_translate.py lines 308-323,
which keys the initial prompt off the local chat_history (after the current
user utterance has been appended) instead of only the name flag, and clears
awaiting_name in the else branch. -/
def resolvePromptStt (chat_history : List ChatMsg)
    (caller_name_known confirmation_given : Bool)
    (predicted_label : String) : String × Bool × Bool :=
  if chat_history = [] ∨
      (chat_history.length = 1
        ∧ (chat_history.map ChatMsg.role).head? = some "user"
        ∧ caller_name_known = false) then
    (INITIAL_SYSTEM_PROMPT, true, confirmation_given)
  else if predicted_label ≠ "" ∧ predicted_label ∉ NON_SPECIFIC_ROUTING_LABELS
      ∧ confirmation_given = false then
    (create_confirmation_system_prompt_stt predicted_label, false, true)
  else
    (STANDARD_SYSTEM_PROMPT, false, confirmation_given)

/-! ### The /chat endpoint (main.py lines 300-373, response.py lines 46-154) -/

/-- Embeds the /chat endpoint emotion resolution (main.py lines 338-368):
skipped for empty input; a detection failure is caught and yields "error";
otherwise the stripped, lowered model output is accepted only when it is one
of the ten allowed labels, keeping the "unknown" default otherwise. The
detection call outcome is the parameter: none models a raised exception,
some r a reply with content r. -/
def resolveEmotion (user_text : String) (detect : Option String) : String :=
  if user_text = "" then "unknown"
  else
    match detect with
    | none => "error"
    | some r =>
      let detected_emotion := lowerStr (stripStr r)
      if validEmotions.contains detected_emotion then detected_emotion
      else "unknown"

/-- Embeds the /chat endpoint (main.py lines 300-373): the stripped user text
is appended to the session memory when non-empty; the system prompt is the
override when given, the standard prompt otherwise, and prefixes the messages
sent to the dialogue model, whose reply (or raised exception) is the llama
parameter; on success the stripped reply is appended when non-empty and the
emotion is resolved; a dialogue-model failure raises 500 after the user
append. Returns the endpoint outcome together with the session memory as
left behind. -/
def chatEndpoint (memory : List ChatMsg) (input_text : String)
    (system_prompt_override : Option String)
    (llama : Option String) (detect : Option String) :
    Except Nat (String × String) × List ChatMsg :=
  let user_text := stripStr input_text
  let memory1 := if user_text ≠ "" then memory ++ [⟨"user", user_text⟩] else memory
  let system_content :=
    match system_prompt_override with
    | some p => p
    | none => STANDARD_SYSTEM_PROMPT
  let messages := ChatMsg.mk "system" system_content :: memory1
  match llama with
  | none => (.error 500, memory1)
  | some raw =>
    let generated_response := stripStr raw
    let memory2 :=
      if generated_response ≠ "" then memory1 ++ [⟨"assistant", generated_response⟩]
      else memory1
    (.ok (generated_response, resolveEmotion user_text detect), memory2)

/-! ### One caller turn of the websocket pipeline -/

/-- Outcome of the speech-to-text stage for one audio chunk: a raised
transport exception, a non-200 HTTP status, or a parsed body with the raw
transcript and optional language code. -/
inductive SttOutcome where
  | transportError
  | httpError (code : Nat)
  | parsed (transcript : String) (language_code : Option String)
deriving DecidableEq

/-- External-service outcomes for one turn of main.py: routing (none models
a raised exception, some the forwarded_to field), the dialogue model reply
(none models a raised exception, some the raw message content), the
emotion-detection reply, and synthesis (none models a raised exception, some
the audio_base64 string of a 200 reply). -/
structure TurnInputs where
  stt : SttOutcome
  routing : Option String
  llama : Option String
  detect : Option String
  tts : Option String
deriving DecidableEq

/-- Events sent on the caller-facing websocket. -/
inductive Event where
  | transcriptEv (payload : String)
  | sttErrorEv (code : Nat)
  | routingInfoEv (department : String)
  | aiAudioResponseEv (text_content audio_base64 language_code : String)
  | aiResponseEv (response : String)
  | errorEv (message : String)
deriving DecidableEq

/-- In-memory state of one main.py websocket handler, together with the
database row of the session and the /chat endpoint memory for the session. -/
structure SessState where
  row : CallRow
  confirmation_given_this_session : Bool
  awaiting_name : Bool
  caller_name_known : Bool
  memory : List ChatMsg
deriving DecidableEq

/-- The name-capture condition of main.py line 503: awaiting_name is set, the
stripped transcript is non-empty and the caller name is not yet known. -/
def nameCaptured (awaiting nameKnown : Bool) (u : String) : Bool :=
  awaiting && !(u == "") && !nameKnown

/-- The fields persisted after STT (main.py lines 499-509): the transcript,
the detected language when present, and the captured, length-capped caller
name when the capture condition held. -/
def sttUpdateFields (u : String) (lang : Option String) (cap : Bool) :
    List FieldVal :=
  let upd1 : List FieldVal :=
    match lang with
    | some l => [.last_transcriptF u, .detected_languageF l]
    | none => [.last_transcriptF u]
  if cap then upd1 ++ [.caller_nameF (String.mk (u.data.take 255))] else upd1

/-- Stage 4 (main.py lines 517-529, stt_translate.py lines 289-302): on a
routing reply, persist and use its label; on a routing failure, keep the
default label Unknown and do not touch the row. -/
def routingStage (routing : Option String) (row : CallRow) : String × CallRow :=
  match routing with
  | some lab => (lab, update_call_data true true 0 [.routing_labelF lab] row)
  | none => ("Unknown", row)

/-- Stage 6 of main.py (lines 550-565): the reply of the internal /chat call,
or the apology fallback when it raised. Also returns the /chat memory left
behind. -/
def dialogueStageMain (memory : List ChatMsg) (u system_content : String)
    (llama detect : Option String) : String × List ChatMsg :=
  match chatEndpoint memory u (some system_content) llama detect with
  | (.ok p, m) => (p.1, m)
  | (.error _, m) => (APOLOGY_FALLBACK, m)

/-- Stages 9-10 of main.py (lines 567-604): when the reply is empty, no
response event is sent; when it exceeds the 500-character bound of the
synthesis request model, the request-model validation raises out of the
synthesis try-block and the turn ends fatally; otherwise a successful
synthesis with non-empty audio yields the audio event plus the empty
timestamp touch, and any other synthesis outcome yields the text event.
Returns the events, the row, and whether the turn was fatal. -/
def respondStageMain (ai : String) (tts : Option String) (row : CallRow) :
    List Event × CallRow × Bool :=
  if ai = "" then ([], row, false)
  else if ai.length > 500 then
    ([.errorEv "Server error processing audio."],
     update_call_data true true 0 [.statusF "Error"] row, true)
  else
    match tts with
    | some audio_base64 =>
        if audio_base64 ≠ "" then
          ([Event.aiAudioResponseEv ai audio_base64 TARGET_LANGUAGE_CODE],
           update_call_data true true 0 [] row, false)
        else ([Event.aiResponseEv ai], row, false)
    | none => ([Event.aiResponseEv ai], row, false)

/-- Embeds one pass of the main.py audio-processing block (lines 466-604) on
one audio chunk: gate check, STT, persistence of transcript and captured
name, empty-transcript skip, routing, prompt resolution, internal /chat call,
synthesis and response emission. Returns the updated state, the events sent
on the websocket in order, and whether the turn ended the session loop with
an unrecoverable error. The store is modelled as available with successful
writes; timestamps are stamped with tick 0. -/
def processTurnMain (t : TurnInputs) (st : SessState) :
    SessState × List Event × Bool :=
  if st.row.handled_by = "Human" then (st, [], false)
  else
    match t.stt with
    | .transportError =>
        ({ st with row := update_call_data true true 0 [.statusF "Error"] st.row },
         [.errorEv "STT service connection error."], true)
    | .httpError code => (st, [.sttErrorEv code], false)
    | .parsed raw_transcript language_code =>
        let user_transcript := stripStr raw_transcript
        let cap := nameCaptured st.awaiting_name st.caller_name_known user_transcript
        let caller_name_known1 := if cap then true else st.caller_name_known
        let awaiting_name1 := if cap then false else st.awaiting_name
        let row1 := update_call_data true true 0
          (sttUpdateFields user_transcript language_code cap) st.row
        if user_transcript = "" then
          ({ st with
              row := row1,
              caller_name_known := caller_name_known1,
              awaiting_name := awaiting_name1 },
           [.transcriptEv user_transcript], false)
        else
          let routed := routingStage t.routing row1
          let predicted_label := routed.1
          let row2 := routed.2
          let resolved :=
            resolvePromptMain caller_name_known1 awaiting_name1
              st.confirmation_given_this_session predicted_label
          let system_content := resolved.1
          let awaiting_name2 := resolved.2.1
          let confirmation_given1 := resolved.2.2
          let row3 :=
            if confirmation_given1 ∧ st.confirmation_given_this_session = false then
              update_call_data true true 0 [.confirmation_givenF true] row2
            else row2
          let dialogue :=
            dialogueStageMain st.memory user_transcript system_content
              t.llama t.detect
          let ai_response_content := dialogue.1
          let memory1 := dialogue.2
          let responded := respondStageMain ai_response_content t.tts row3
          ({ row := responded.2.1,
             confirmation_given_this_session := confirmation_given1,
             awaiting_name := awaiting_name2, caller_name_known := caller_name_known1,
             memory := memory1 },
           [.transcriptEv user_transcript, .routingInfoEv predicted_label]
             ++ responded.1, responded.2.2)

/-! ### The session loop and the websocket handler (main.py lines 391-626) -/

/-- One message received on the websocket: an audio frame together with the
outcomes of the external calls its processing will make, a non-audio frame
(ignored by the loop), or a disconnect. -/
inductive Inbound where
  | audio (t : TurnInputs)
  | textFrame
  | disconnect
deriving DecidableEq

/-- Embeds the main processing while-loop (main.py lines 453-615): messages
are handled in order; a disconnect breaks the loop; an audio frame runs one
turn and breaks the loop when the turn ended fatally. The end of the message
list models the client closing the connection. Returns the final handler
state and all events sent. -/
def runLoopMain : List Inbound → SessState → SessState × List Event
  | [], st => (st, [])
  | .disconnect :: _, st => (st, [])
  | .textFrame :: rest, st => runLoopMain rest st
  | .audio t :: rest, st =>
    let r := processTurnMain t st
    if r.2.2 = true then (r.1, r.2.1)
    else
      let rest2 := runLoopMain rest r.1
      (rest2.1, r.2.1 ++ rest2.2)

/-- Embeds the whole websocket handler call_endpoint (main.py lines 391-626)
for a session whose database is reachable: the session row is upserted and
reset, the initial flags are fetched back from it, the loop runs, and the
guaranteed-cleanup block persists status Ended because the initialization
succeeded. memory0 is the /chat memory the session id already has in the
process (empty for a fresh process). -/
def callEndpointMain (msgs : List Inbound) (store : Option CallRow)
    (memory0 : List ChatMsg) (now : Nat) : CallRow × List Event :=
  let row0 := initUpsert now store
  let st0 : SessState :=
    { row := row0,
      confirmation_given_this_session := row0.confirmation_given,
      awaiting_name := false,
      caller_name_known := row0.caller_name ≠ "" ∧ row0.caller_name ≠ "Unknown",
      memory := memory0 }
  let (stFinal, evs) := runLoopMain msgs st0
  (update_call_data true true now [.statusF "Ended"] stFinal.row, evs)

/-! ### One caller turn of the stt_translate.py variant (lines 228-431) -/

/-- External-service outcomes for one turn of stt_translate.py, which also
calls a translation service between dialogue and synthesis. llama here is
the response_text field of the dialogue service reply (none models a raised
exception or non-2xx status), translate the translated_text field, tts the
audio_base64 field. -/
structure TurnInputsStt where
  stt : SttOutcome
  routing : Option String
  llama : Option String
  translate : Option String
  tts : Option String
deriving DecidableEq

/-- In-memory state of one stt_translate.py websocket handler: the handler
keeps its own local chat_history instead of a /chat memory. -/
structure SttSessState where
  row : CallRow
  confirmation_given_this_session : Bool
  chat_history : List ChatMsg
  awaiting_name : Bool
  caller_name_known : Bool
deriving DecidableEq

/-- Stage 6 of stt_translate.py (lines 325-342): the stripped response_text
of the dialogue service, appended to the history when non-empty; the apology
fallback (not appended) when the call failed. -/
def dialogueStageStt (llama : Option String) (hist : List ChatMsg) :
    String × List ChatMsg :=
  match llama with
  | none => (APOLOGY_FALLBACK, hist)
  | some raw =>
    let r := stripStr raw
    if r ≠ "" then (r, hist ++ [ChatMsg.mk "assistant" r])
    else ("", hist)

/-- Stage 7 of stt_translate.py (lines 344-358): translation with fallback to
the untranslated text on failure or an empty translation, and the empty
string for an empty reply. -/
def translateStage (ai : String) (translate : Option String) : String :=
  if ai ≠ "" then
    match translate with
    | some rawT =>
      let tr := stripStr rawT
      if tr ≠ "" then tr else ai
    | none => ai
  else ""

/-- Stages 9-10 of stt_translate.py (lines 369-395): with non-empty cleaned
text, successful synthesis with non-empty audio yields the audio event and
the empty timestamp touch, any other synthesis outcome yields the text
event carrying the (uncleaned) translated text; with empty cleaned text, a
text event carrying the empty string is sent. -/
def respondStageStt (translated : String) (tts : Option String) (row : CallRow) :
    List Event × CallRow :=
  let text_for_tts := clean_text_for_tts translated
  if text_for_tts ≠ "" then
    match tts with
    | some audio_base64 =>
        if audio_base64 ≠ "" then
          ([Event.aiAudioResponseEv translated audio_base64 TARGET_LANGUAGE_CODE],
           update_call_data true true 0 [] row)
        else ([Event.aiResponseEv translated], row)
    | none => ([Event.aiResponseEv translated], row)
  else ([Event.aiResponseEv ""], row)

/-- Embeds one pass of the stt_translate.py audio-processing block (lines
244-408): gate check, STT, persistence and name capture, history append,
skip when the transcript is empty and the history is empty, routing, prompt
resolution, dialogue call, translation with fallback to the untranslated
text, text cleaning, synthesis, and response emission — including the
text-only events of the fallback paths. -/
def processTurnStt (t : TurnInputsStt) (st : SttSessState) :
    SttSessState × List Event × Bool :=
  if st.row.handled_by = "Human" then (st, [], false)
  else
    match t.stt with
    | .transportError =>
        ({ st with row := update_call_data true true 0 [.statusF "Error"] st.row },
         [.errorEv "STT service connection error."], true)
    | .httpError code => (st, [.sttErrorEv code], false)
    | .parsed raw_transcript language_code =>
        let user_transcript := stripStr raw_transcript
        let cap := nameCaptured st.awaiting_name st.caller_name_known user_transcript
        let caller_name_known1 := if cap then true else st.caller_name_known
        let awaiting_name1 := if cap then false else st.awaiting_name
        let row1 := update_call_data true true 0
          (sttUpdateFields user_transcript language_code cap) st.row
        let chat_history1 :=
          if user_transcript ≠ "" then st.chat_history ++ [ChatMsg.mk "user" user_transcript]
          else st.chat_history
        if user_transcript = "" ∧ chat_history1 = [] then
          ({ st with
              row := row1,
              chat_history := chat_history1,
              caller_name_known := caller_name_known1,
              awaiting_name := awaiting_name1 },
           [.transcriptEv user_transcript], false)
        else
          let routed := routingStage t.routing row1
          let predicted_label := routed.1
          let row2 := routed.2
          let resolved :=
            resolvePromptStt chat_history1 caller_name_known1
              st.confirmation_given_this_session predicted_label
          let system_content := resolved.1
          let awaiting_name2 := resolved.2.1
          let confirmation_given1 := resolved.2.2
          let row3 :=
            if confirmation_given1 ∧ st.confirmation_given_this_session = false then
              update_call_data true true 0 [.confirmation_givenF true] row2
            else row2
          let dialogue := dialogueStageStt t.llama chat_history1
          let ai_response_content := dialogue.1
          let chat_history2 := dialogue.2
          let translated_ai_response_content :=
            translateStage ai_response_content t.translate
          let responded :=
            respondStageStt translated_ai_response_content t.tts row3
          ({ row := responded.2,
             confirmation_given_this_session := confirmation_given1,
             chat_history := chat_history2,
             awaiting_name := awaiting_name2,
             caller_name_known := caller_name_known1 },
           [.transcriptEv user_transcript, .routingInfoEv predicted_label]
             ++ responded.1, false)

/-! ### Normal-form predicates for the cleaned synthesis text -/

/-- No question or exclamation mark occurs in the list. -/
def NoQB (l : List Char) : Prop := ∀ c ∈ l, isPunctQB c = false

/-- Every whitespace character of the list is a plain space. -/
def WsSpace (l : List Char) : Prop := ∀ c ∈ l, isWs c = true → c = ' '

/-- No two adjacent characters of the list are both whitespace. -/
def NoAdjWs : List Char → Prop
  | [] => True
  | [_] => True
  | a :: b :: t => (isWs a = true → isWs b = false) ∧ NoAdjWs (b :: t)

/-- The first character, when present, is not whitespace. -/
def HeadNotWs (l : List Char) : Prop :=
  ∀ c, l.head? = some c → isWs c = false

/-- The last character, when present, is not whitespace. -/
def LastNotWs (l : List Char) : Prop :=
  ∀ c, l.getLast? = some c → isWs c = false

/-- Events that answer the caller for a turn (audio or text response). -/
def isResponseEvent : Event → Bool
  | .aiAudioResponseEv _ _ _ => true
  | .aiResponseEv _ => true
  | _ => false

/-- Audio response events. -/
def isAudioEvent : Event → Bool
  | .aiAudioResponseEv _ _ _ => true
  | _ => false

/-- Routing-information events, the marker that a turn reached stage 4. -/
def isRoutingEvent : Event → Bool
  | .routingInfoEv _ => true
  | _ => false

/-- The emotion strings a successful /chat reply may carry. -/
def allowedEmotion (e : String) : Bool :=
  validEmotions.contains e || e = "unknown" || e = "error"

/-- True for every update field other than handled_by. -/
def notHandledF : FieldVal → Bool
  | .handled_byF _ => false
  | _ => true

/-- True for every update field other than status. -/
def notStatusF : FieldVal → Bool
  | .statusF _ => false
  | _ => true

/-! ## Lemmas about whitespace collapsing -/

theorem mem_collapseAux : ∀ (b : Bool) (l : List Char) (c : Char),
    c ∈ collapseAux b l → c = ' ' ∨ (c ∈ l ∧ isWs c = false) := by
  intro b l
  induction l generalizing b with
  | nil => intro c h; simp [collapseAux] at h
  | cons a t ih =>
    intro c h
    by_cases hws : isWs a = true
    · cases b with
      | true =>
        simp only [collapseAux, hws, if_true] at h
        rcases ih true c h with h1 | h1
        · exact Or.inl h1
        · exact Or.inr ⟨List.mem_cons_of_mem a h1.1, h1.2⟩
      | false =>
        simp only [collapseAux, hws, if_true] at h
        rcases List.mem_cons.mp h with h1 | h1
        · exact Or.inl h1
        · rcases ih true c h1 with h2 | h2
          · exact Or.inl h2
          · exact Or.inr ⟨List.mem_cons_of_mem a h2.1, h2.2⟩
    · simp only [collapseAux, hws, if_false] at h
      rcases List.mem_cons.mp h with h1 | h1
      · exact Or.inr ⟨h1 ▸ List.mem_cons_self a t, h1 ▸ Bool.of_not_eq_true hws⟩
      · rcases ih false c h1 with h2 | h2
        · exact Or.inl h2
        · exact Or.inr ⟨List.mem_cons_of_mem a h2.1, h2.2⟩

theorem headNotWs_collapseAux_true : ∀ l : List Char, HeadNotWs (collapseAux true l) := by
  intro l
  induction l with
  | nil => intro c h; simp [collapseAux] at h
  | cons a t ih =>
    by_cases hws : isWs a = true
    · simpa [collapseAux, hws] using ih
    · intro c h
      simp only [collapseAux] at h
      rw [if_neg hws] at h
      simp only [List.head?_cons, Option.some.injEq] at h
      rw [← h]
      exact Bool.of_not_eq_true hws

theorem noAdjWs_cons (a : Char) (t : List Char) (ht : NoAdjWs t)
    (hh : isWs a = true → HeadNotWs t) : NoAdjWs (a :: t) := by
  cases t with
  | nil => trivial
  | cons b t2 =>
    refine ⟨fun hwa => ?_, ht⟩
    exact hh hwa b rfl

theorem noAdjWs_collapseAux : ∀ (l : List Char) (b : Bool), NoAdjWs (collapseAux b l) := by
  intro l
  induction l with
  | nil => intro b; simp [collapseAux, NoAdjWs]
  | cons a t ih =>
    intro b
    by_cases hws : isWs a = true
    · cases b with
      | true => simpa [collapseAux, hws] using ih true
      | false =>
        simp only [collapseAux, hws, if_true]
        exact noAdjWs_cons ' ' _ (ih true) (fun _ => headNotWs_collapseAux_true t)
    · simp only [collapseAux, hws, if_false]
      refine noAdjWs_cons a _ (ih false) (fun hwa => absurd hwa hws)

theorem collapseAux_eq_self : ∀ (l : List Char) (b : Bool), WsSpace l → NoAdjWs l →
    (b = true → HeadNotWs l) → collapseAux b l = l := by
  intro l
  induction l with
  | nil => intro b _ _ _; simp [collapseAux]
  | cons a t ih =>
    intro b hs hadj hb
    by_cases hws : isWs a = true
    · have ha : a = ' ' := hs a (List.mem_cons_self a t) hws
      cases b with
      | true =>
        have hcontra := hb rfl a rfl
        rw [hws] at hcontra
        exact absurd hcontra (by simp)
      | false =>
        have htail : HeadNotWs t := by
          intro c hc
          cases t with
          | nil => simp at hc
          | cons x t2 =>
            simp only [List.head?_cons, Option.some.injEq] at hc
            exact hc ▸ hadj.1 hws
        have hadjt : NoAdjWs t := by
          cases t with
          | nil => trivial
          | cons x t2 => exact hadj.2
        have hrec := ih true (fun c hc hcw => hs c (List.mem_cons_of_mem a hc) hcw)
          hadjt (fun _ => htail)
        simp only [collapseAux]
        rw [if_pos hws, if_neg (by simp), hrec, ha]
    · have hadjt : NoAdjWs t := by
        cases t with
        | nil => trivial
        | cons x t2 => exact hadj.2
      have hrec := ih false (fun c hc hcw => hs c (List.mem_cons_of_mem a hc) hcw)
        hadjt (fun h => absurd h (by simp))
      simp only [collapseAux]
      rw [if_neg hws, hrec]

/-! ## Lemmas about trimming -/

theorem head_dropWhile_not (p : Char → Bool) : ∀ (l : List Char) (c : Char),
    (l.dropWhile p).head? = some c → p c = false := by
  intro l
  induction l with
  | nil => intro c h; simp [List.dropWhile] at h
  | cons a t ih =>
    intro c h
    by_cases hp : p a = true
    · rw [List.dropWhile_cons_of_pos hp] at h
      exact ih c h
    · rw [List.dropWhile_cons_of_neg hp] at h
      simp only [List.head?_cons, Option.some.injEq] at h
      rw [← h]
      exact Bool.of_not_eq_true hp

theorem dropWhile_eq_self_of_headNot (p : Char → Bool) (l : List Char)
    (h : ∀ c, l.head? = some c → p c = false) : l.dropWhile p = l := by
  cases l with
  | nil => rfl
  | cons a t =>
    have := h a rfl
    rw [List.dropWhile_cons_of_neg (by simp [this])]

theorem dropLastWhile_cons (p : Char → Bool) (a : Char) (t : List Char) :
    dropLastWhile p (a :: t) =
      if (dropLastWhile p t).isEmpty then (if p a then [] else [a])
      else a :: dropLastWhile p t := rfl

theorem dropLastWhile_decomp (p : Char → Bool) : ∀ l : List Char,
    ∃ s, l = dropLastWhile p l ++ s := by
  intro l
  induction l with
  | nil => exact ⟨[], rfl⟩
  | cons a t ih =>
    rcases ih with ⟨s, hs⟩
    by_cases hr : (dropLastWhile p t).isEmpty = true
    · have hrnil : dropLastWhile p t = [] := List.isEmpty_iff.mp hr
      by_cases hp : p a = true
      · refine ⟨a :: t, ?_⟩
        rw [dropLastWhile_cons, if_pos hr, if_pos hp, List.nil_append]
      · refine ⟨s, ?_⟩
        rw [dropLastWhile_cons, if_pos hr, if_neg hp, List.singleton_append]
        rw [hs, hrnil, List.nil_append]
    · refine ⟨s, ?_⟩
      rw [dropLastWhile_cons, if_neg hr, List.cons_append, ← hs]

theorem getLast_dropLastWhile_not (p : Char → Bool) : ∀ (l : List Char) (c : Char),
    (dropLastWhile p l).getLast? = some c → p c = false := by
  intro l
  induction l with
  | nil => intro c h; simp [dropLastWhile] at h
  | cons a t ih =>
    intro c h
    rw [dropLastWhile_cons] at h
    by_cases hr : (dropLastWhile p t).isEmpty = true
    · rw [if_pos hr] at h
      by_cases hp : p a = true
      · rw [if_pos hp] at h; simp at h
      · rw [if_neg hp] at h
        simp only [List.getLast?_singleton, Option.some.injEq] at h
        rw [← h]
        exact Bool.of_not_eq_true hp
    · rw [if_neg hr] at h
      cases hcase : dropLastWhile p t with
      | nil => rw [hcase] at hr; simp at hr
      | cons x r2 =>
        rw [hcase, List.getLast?_cons_cons] at h
        rw [← hcase] at h
        exact ih c h

theorem head_dropLastWhile (p : Char → Bool) : ∀ l : List Char,
    dropLastWhile p l = [] ∨ (dropLastWhile p l).head? = l.head? := by
  intro l
  cases l with
  | nil => exact Or.inl rfl
  | cons a t =>
    rw [dropLastWhile_cons]
    by_cases hr : (dropLastWhile p t).isEmpty = true
    · rw [if_pos hr]
      by_cases hp : p a = true
      · left; rw [if_pos hp]
      · right; rw [if_neg hp]; rfl
    · right; rw [if_neg hr]; rfl

theorem dropLastWhile_eq_self (p : Char → Bool) : ∀ l : List Char,
    (∀ c, l.getLast? = some c → p c = false) → dropLastWhile p l = l := by
  intro l
  induction l with
  | nil => intro _; rfl
  | cons a t ih =>
    intro h
    cases t with
    | nil =>
      have := h a rfl
      simp [dropLastWhile_cons, dropLastWhile, this]
    | cons b t2 =>
      have hrec : dropLastWhile p (b :: t2) = b :: t2 := by
        apply ih
        intro c hc
        apply h
        rw [List.getLast?_cons_cons]
        exact hc
      rw [dropLastWhile_cons, hrec]
      simp

theorem mem_dropWhile (p : Char → Bool) (l : List Char) (c : Char)
    (h : c ∈ l.dropWhile p) : c ∈ l := by
  have hsplit := List.takeWhile_append_dropWhile (p := p) (l := l)
  rw [← hsplit]
  exact List.mem_append_right _ h

theorem mem_dropLastWhile (p : Char → Bool) (l : List Char) (c : Char)
    (h : c ∈ dropLastWhile p l) : c ∈ l := by
  rcases dropLastWhile_decomp p l with ⟨s, hs⟩
  rw [hs]
  exact List.mem_append_left _ h

theorem mem_stripChars (l : List Char) (c : Char) (h : c ∈ stripChars l) : c ∈ l :=
  mem_dropWhile isWs l c (mem_dropLastWhile isWs _ c h)

theorem headNotWs_stripChars (l : List Char) : HeadNotWs (stripChars l) := by
  intro c h
  rcases head_dropLastWhile isWs (l.dropWhile isWs) with hnil | hhead
  · rw [stripChars, hnil] at h; simp at h
  · rw [stripChars, hhead] at h
    exact head_dropWhile_not isWs l c h

theorem lastNotWs_stripChars (l : List Char) : LastNotWs (stripChars l) :=
  fun c h => getLast_dropLastWhile_not isWs (l.dropWhile isWs) c h

theorem stripChars_eq_self (l : List Char) (h1 : HeadNotWs l) (h2 : LastNotWs l) :
    stripChars l = l := by
  rw [stripChars, dropWhile_eq_self_of_headNot isWs l h1]
  exact dropLastWhile_eq_self isWs l h2

/-! ## Adjacent-whitespace preservation and the idempotence of the cleaner -/

theorem noAdjWs_tail (a : Char) (t : List Char) (h : NoAdjWs (a :: t)) : NoAdjWs t := by
  cases t with
  | nil => trivial
  | cons b t2 => exact h.2

theorem noAdjWs_append_left : ∀ (x y : List Char), NoAdjWs (x ++ y) → NoAdjWs x
  | [], _, _ => trivial
  | [_], _, _ => trivial
  | a :: b :: t, y, h => ⟨h.1, noAdjWs_append_left (b :: t) y h.2⟩

theorem noAdjWs_append_right : ∀ (x y : List Char), NoAdjWs (x ++ y) → NoAdjWs y
  | [], _, h => h
  | a :: x, y, h => noAdjWs_append_right x y (noAdjWs_tail a (x ++ y) h)

theorem noAdjWs_dropWhile (l : List Char) (h : NoAdjWs l) :
    NoAdjWs (l.dropWhile isWs) := by
  have hsplit := List.takeWhile_append_dropWhile (p := isWs) (l := l)
  exact noAdjWs_append_right _ _ (hsplit ▸ h)

theorem noAdjWs_stripChars (l : List Char) (h : NoAdjWs l) :
    NoAdjWs (stripChars l) := by
  rcases dropLastWhile_decomp isWs (l.dropWhile isWs) with ⟨s, hs⟩
  exact noAdjWs_append_left _ s (hs ▸ noAdjWs_dropWhile l h)

theorem noQB_removeQB (l : List Char) : NoQB (removeQB l) := by
  intro c hc
  have := List.of_mem_filter hc
  simpa using this

theorem removeQB_eq_self (l : List Char) (h : NoQB l) : removeQB l = l := by
  apply List.filter_eq_self.mpr
  intro a ha
  simp [h a ha]

theorem noQB_cleanData (l : List Char) : NoQB (cleanData l) := by
  intro c hc
  rcases mem_collapseAux false (removeQB l) c (mem_stripChars _ c hc) with h1 | h1
  · rw [h1]; rfl
  · exact noQB_removeQB l c h1.1

theorem wsSpace_cleanData (l : List Char) : WsSpace (cleanData l) := by
  intro c hc hw
  rcases mem_collapseAux false (removeQB l) c (mem_stripChars _ c hc) with h1 | h1
  · exact h1
  · rw [h1.2] at hw; cases hw

theorem noAdjWs_cleanData (l : List Char) : NoAdjWs (cleanData l) :=
  noAdjWs_stripChars _ (noAdjWs_collapseAux (removeQB l) false)

theorem headNotWs_cleanData (l : List Char) : HeadNotWs (cleanData l) :=
  headNotWs_stripChars _

theorem lastNotWs_cleanData (l : List Char) : LastNotWs (cleanData l) :=
  lastNotWs_stripChars _

theorem cleanData_eq_self (m : List Char) (hq : NoQB m) (hw : WsSpace m)
    (ha : NoAdjWs m) (hh : HeadNotWs m) (hl : LastNotWs m) : cleanData m = m := by
  rw [cleanData, removeQB_eq_self m hq, collapseWs,
    collapseAux_eq_self m false hw ha (fun h => absurd h (by simp))]
  exact stripChars_eq_self m hh hl

theorem cleanData_idem (l : List Char) : cleanData (cleanData l) = cleanData l :=
  cleanData_eq_self (cleanData l) (noQB_cleanData l) (wsSpace_cleanData l)
    (noAdjWs_cleanData l) (headNotWs_cleanData l) (lastNotWs_cleanData l)

/-- C9: the text-normalization step applied before speech synthesis (removing
runs of question and exclamation marks, collapsing whitespace runs to single
spaces, trimming) is deterministic — it is a pure function of its input — and
idempotent: applying it twice yields the same result as applying it once, for
every input string. -/
theorem clean_text_for_tts_idempotent (s : String) :
    clean_text_for_tts (clean_text_for_tts s) = clean_text_for_tts s := by
  by_cases h : s = ""
  · subst h; rfl
  · have h1 : clean_text_for_tts s = String.mk (cleanData s.data) := by
      simp only [clean_text_for_tts, if_neg h]
    rw [h1]
    by_cases h2 : String.mk (cleanData s.data) = ""
    · simp only [clean_text_for_tts, if_pos h2]
    · simp only [clean_text_for_tts, if_neg h2]
      show String.mk (cleanData (cleanData s.data)) = String.mk (cleanData s.data)
      rw [cleanData_idem]

/-! ## Lemmas about the substring search -/

theorem strData_append (a b : String) : (a ++ b).data = a.data ++ b.data := rfl

theorem matchesAt_nil : ∀ l : List Char, matchesAt l [] = true := by
  intro l
  cases l <;> rfl

theorem matchesAt_append : ∀ (n rest : List Char), matchesAt (n ++ rest) n = true := by
  intro n
  induction n with
  | nil => intro rest; exact matchesAt_nil _
  | cons c n2 ih =>
    intro rest
    show matchesAt (c :: (n2 ++ rest)) (c :: n2) = true
    show (c == c && matchesAt (n2 ++ rest) n2) = true
    rw [ih]
    simp

theorem hasSub_here (l n : List Char) (h : matchesAt l n = true) :
    hasSub l n = true := by
  cases l with
  | nil => exact h
  | cons a t => simp [hasSub, h]

theorem hasSub_append_left (s t n : List Char) (h : hasSub t n = true) :
    hasSub (s ++ t) n = true := by
  induction s with
  | nil => exact h
  | cons a s2 ih => simp [hasSub, ih]

theorem strAppend_assoc (a b c : String) : a ++ b ++ c = a ++ (b ++ c) :=
  congrArg String.mk (List.append_assoc a.data b.data c.data)

theorem containsStr_append_left (s t n : String) (h : containsStr t n = true) :
    containsStr (s ++ t) n = true :=
  hasSub_append_left s.data t.data n.data h

theorem containsStr_first (n rest : String) : containsStr (n ++ rest) n = true :=
  hasSub_here (n.data ++ rest.data) n.data (matchesAt_append n.data rest.data)

theorem confirmation_prompt_contains (label : String) :
    containsStr (create_confirmation_system_prompt label)
      ("I am recording the details for the " ++ label) = true := by
  have hsplit : ("Understood. I am recording the details for the " : String)
      = "Understood. " ++ "I am recording the details for the " := by decide
  unfold create_confirmation_system_prompt
  rw [hsplit]
  repeat rw [strAppend_assoc]
  apply containsStr_append_left
  apply containsStr_append_left
  apply containsStr_append_left
  apply containsStr_append_left
  apply containsStr_append_left
  apply containsStr_append_left
  rw [← strAppend_assoc]
  exact containsStr_first _ _

/-- C4 (amended: the routing label must additionally be non-empty, because
the source guards the confirmation branch with the truthiness of the label):
for every turn where the caller name is known, the routing label is non-empty
and non-generic, and confirmation_given is false, the resolved phase is
Confirmation — the system prompt is the confirmation prompt, which contains
the exact templated acknowledgement naming the department — and
confirmation_given becomes true in the same step; a later turn with the same
label and confirmation_given true resolves to Standard, with no repeat
confirmation. -/
theorem confirmation_phase_resolution (awaiting_name : Bool) (label : String)
    (hne : label ≠ "") (hgen : label ∉ NON_SPECIFIC_ROUTING_LABELS) :
    resolvePromptMain true awaiting_name false label
        = (create_confirmation_system_prompt label, awaiting_name, true)
      ∧ containsStr (create_confirmation_system_prompt label)
          ("I am recording the details for the " ++ label) = true
      ∧ resolvePromptMain true awaiting_name true label
        = (STANDARD_SYSTEM_PROMPT, awaiting_name, true) := by
  refine ⟨?_, confirmation_prompt_contains label, ?_⟩
  · rw [resolvePromptMain, if_neg (by simp), if_pos ⟨hne, hgen, rfl⟩]
  · rw [resolvePromptMain, if_neg (by simp), if_neg (by simp)]

/-- Witness for C4 at label "Fire Department". -/
theorem confirmation_phase_resolution_witness :
    resolvePromptMain true false false "Fire Department"
        = (create_confirmation_system_prompt "Fire Department", false, true)
      ∧ containsStr (create_confirmation_system_prompt "Fire Department")
          ("I am recording the details for the " ++ "Fire Department") = true
      ∧ resolvePromptMain true false true "Fire Department"
        = (STANDARD_SYSTEM_PROMPT, false, true) :=
  confirmation_phase_resolution false "Fire Department" (by decide) (by decide)

/-- C4 counterexample: the empty routing label is not in the generic set
{"Unknown", "General Inquiry"}, yet with the caller name known and
confirmation_given false the phase resolves to Standard and
confirmation_given stays false — the claim as stated fails for it. -/
theorem empty_label_no_confirmation :
    ("" : String) ∉ NON_SPECIFIC_ROUTING_LABELS
      ∧ resolvePromptMain true false false ""
          = (STANDARD_SYSTEM_PROMPT, false, false) := by
  constructor
  · decide
  · rw [resolvePromptMain, if_neg (by simp), if_neg (by simp)]

/-- C3 (amended): in the main.py coordinator, whenever the caller name is not
yet known the resolved phase is NameCapture — the initial ask-for-name prompt
is chosen and awaiting_name is set — regardless of routing label,
confirmation state or history. In the stt_translate.py coordinator this holds
only when the conversation history (after appending the current utterance) is
empty or consists of exactly one user message; with a longer history the
phase falls through to the confirmation/standard rules even though the name
is unknown. -/
theorem name_capture_phase_resolution :
    (∀ (awaiting confirmation : Bool) (label : String),
      resolvePromptMain false awaiting confirmation label
        = (INITIAL_SYSTEM_PROMPT, true, confirmation))
    ∧ (∀ (confirmation : Bool) (label : String),
      resolvePromptStt [] false confirmation label
        = (INITIAL_SYSTEM_PROMPT, true, confirmation))
    ∧ (∀ (confirmation : Bool) (label u : String),
      resolvePromptStt [ChatMsg.mk "user" u] false confirmation label
        = (INITIAL_SYSTEM_PROMPT, true, confirmation)) := by
  refine ⟨fun awaiting confirmation label => ?_, fun confirmation label => ?_,
    fun confirmation label u => ?_⟩
  · rw [resolvePromptMain, if_pos rfl]
  · rw [resolvePromptStt, if_pos (Or.inl rfl)]
  · rw [resolvePromptStt, if_pos (Or.inr ⟨rfl, rfl, rfl⟩)]

/-- C3 counterexample: in the stt_translate.py variant, a processed utterance
with the caller name still unknown but a two-message history resolves to the
Standard phase with awaiting_name cleared, not to NameCapture — such a state
arises when the first turn is answered and the second utterance is empty. -/
theorem stt_variant_name_unknown_not_name_capture :
    resolvePromptStt [ChatMsg.mk "user" "help", ChatMsg.mk "assistant" "hello"]
        false false "Unknown"
      = (STANDARD_SYSTEM_PROMPT, false, false)
    ∧ STANDARD_SYSTEM_PROMPT ≠ INITIAL_SYSTEM_PROMPT := by
  constructor
  · rw [resolvePromptStt, if_neg (by simp), if_neg (by decide)]
  · decide

/-! ## Lemmas about which columns an update touches -/

theorem applyFields_handled_by : ∀ (l : List FieldVal) (r : CallRow),
    l.all notHandledF = true → (applyFields l r).handled_by = r.handled_by := by
  intro l
  induction l with
  | nil => intro r _; rfl
  | cons f t ih =>
    intro r h
    rw [List.all_cons, Bool.and_eq_true] at h
    rw [show applyFields (f :: t) r = applyFields t (applyField r f) from rfl]
    rw [ih _ h.2]
    cases f with
    | handled_byF v => exact absurd h.1 (by simp [notHandledF])
    | statusF v => rfl
    | caller_nameF v => rfl
    | routing_labelF v => rfl
    | confirmation_givenF v => rfl
    | last_transcriptF v => rfl
    | detected_languageF v => rfl

theorem update_call_data_handled_by (db wr : Bool) (now : Nat)
    (l : List FieldVal) (r : CallRow) (h : l.all notHandledF = true) :
    (update_call_data db wr now l r).handled_by = r.handled_by := by
  rw [update_call_data]
  split
  · rfl
  · split
    · rfl
    · show (applyFields l r).handled_by = r.handled_by
      exact applyFields_handled_by l r h

theorem applyFields_status : ∀ (l : List FieldVal) (r : CallRow),
    l.all notStatusF = true → (applyFields l r).status = r.status := by
  intro l
  induction l with
  | nil => intro r _; rfl
  | cons f t ih =>
    intro r h
    rw [List.all_cons, Bool.and_eq_true] at h
    rw [show applyFields (f :: t) r = applyFields t (applyField r f) from rfl]
    rw [ih _ h.2]
    cases f with
    | statusF v => exact absurd h.1 (by simp [notStatusF])
    | handled_byF v => rfl
    | caller_nameF v => rfl
    | routing_labelF v => rfl
    | confirmation_givenF v => rfl
    | last_transcriptF v => rfl
    | detected_languageF v => rfl

theorem update_call_data_status (db wr : Bool) (now : Nat)
    (l : List FieldVal) (r : CallRow) (h : l.all notStatusF = true) :
    (update_call_data db wr now l r).status = r.status := by
  rw [update_call_data]
  split
  · rfl
  · split
    · rfl
    · show (applyFields l r).status = r.status
      exact applyFields_status l r h

theorem update_call_data_sets_status (now : Nat) (v : String)
    (r : CallRow) : (update_call_data true true now [.statusF v] r).status = v := rfl

theorem sttUpdateFields_notHandled (u : String) (lang : Option String) (cap : Bool) :
    (sttUpdateFields u lang cap).all notHandledF = true := by
  unfold sttUpdateFields
  cases lang <;> cases cap <;> rfl

theorem sttUpdateFields_notStatus (u : String) (lang : Option String) (cap : Bool) :
    (sttUpdateFields u lang cap).all notStatusF = true := by
  unfold sttUpdateFields
  cases lang <;> cases cap <;> rfl

theorem routingStage_handled_by (routing : Option String) (row : CallRow) :
    ((routingStage routing row).2).handled_by = row.handled_by := by
  cases routing with
  | none => rfl
  | some lab => exact update_call_data_handled_by true true 0 _ row rfl

theorem respondStageMain_handled_by (ai : String) (tts : Option String) (row : CallRow) :
    ((respondStageMain ai tts row).2.1).handled_by = row.handled_by := by
  unfold respondStageMain
  split
  · rfl
  · split
    · exact update_call_data_handled_by true true 0 _ row rfl
    · split
      · split
        · exact update_call_data_handled_by true true 0 _ row rfl
        · rfl
      · rfl

theorem processTurnMain_handled_by (t : TurnInputs) (st : SessState) :
    ((processTurnMain t st).1).row.handled_by = st.row.handled_by := by
  unfold processTurnMain
  split
  · rfl
  · split
    · exact update_call_data_handled_by true true 0 _ st.row rfl
    · rfl
    · simp only []
      split
      · exact update_call_data_handled_by true true 0 _ st.row
          (sttUpdateFields_notHandled _ _ _)
      · show (respondStageMain _ _ _).2.1.handled_by = st.row.handled_by
        rw [respondStageMain_handled_by]
        repeat' split
        all_goals
          first
          | (rw [update_call_data_handled_by true true 0
                  [FieldVal.confirmation_givenF true] _ rfl, routingStage_handled_by]
             exact update_call_data_handled_by true true 0 _ st.row
               (sttUpdateFields_notHandled _ _ _))
          | (rw [routingStage_handled_by]
             exact update_call_data_handled_by true true 0 _ st.row
               (sttUpdateFields_notHandled _ _ _))

theorem runLoopMain_handled_by : ∀ (msgs : List Inbound) (st : SessState),
    ((runLoopMain msgs st).1).row.handled_by = st.row.handled_by := by
  intro msgs
  induction msgs with
  | nil => intro st; rfl
  | cons m rest ih =>
    intro st
    cases m with
    | disconnect => rfl
    | textFrame => exact ih st
    | audio t =>
      simp only [runLoopMain]
      split
      · exact processTurnMain_handled_by t st
      · rw [ih ((processTurnMain t st).1)]
        exact processTurnMain_handled_by t st

theorem processTurnMain_gate (t : TurnInputs) (st : SessState)
    (h : st.row.handled_by = "Human") : processTurnMain t st = (st, [], false) := by
  unfold processTurnMain
  rw [if_pos h]

theorem takeover_ok_sets_human (store : Option CallRow) (now : Nat) (r : CallRow)
    (h : takeover_call_endpoint store now = .ok r) : r.handled_by = "Human" := by
  match store with
  | none => exact absurd h (by rw [takeover_call_endpoint]; intro hx; cases hx)
  | some row =>
    rw [takeover_call_endpoint] at h
    by_cases h1 : row.status = ""
    · rw [if_pos h1] at h; cases h
    · rw [if_neg h1] at h
      by_cases h2 : row.status ≠ "Active"
      · rw [if_pos h2] at h; cases h
      · rw [if_neg h2] at h
        cases h
        rfl

/-- C2 (amended): within one websocket connection, handled_by is monotone:
no turn of the pipeline ever writes handled_by, a whole loop run leaves it
unchanged, a turn on a session handled by Human is a complete no-op (gate),
and the takeover endpoint only ever sets it to Human. However, the
re-initialization upsert run when the same session_id re-connects resets
handled_by to AI (see the counterexample), so the one-way property does not
survive a re-connection. -/
theorem handled_by_monotone_within_connection :
    (∀ (t : TurnInputs) (st : SessState),
      ((processTurnMain t st).1).row.handled_by = st.row.handled_by)
    ∧ (∀ (t : TurnInputs) (st : SessState), st.row.handled_by = "Human" →
      processTurnMain t st = (st, [], false))
    ∧ (∀ (msgs : List Inbound) (st : SessState),
      ((runLoopMain msgs st).1).row.handled_by = st.row.handled_by)
    ∧ (∀ (store : Option CallRow) (now : Nat) (r : CallRow),
      takeover_call_endpoint store now = .ok r → r.handled_by = "Human") :=
  ⟨processTurnMain_handled_by, processTurnMain_gate, runLoopMain_handled_by,
   takeover_ok_sets_human⟩

/-- Witness for C2: a Human-handled session ignores an audio turn entirely,
and a successful takeover leaves handled_by = Human. -/
theorem handled_by_monotone_within_connection_witness :
    processTurnMain ⟨SttOutcome.parsed "hi" none, none, none, none, none⟩
        ⟨{ freshRow 0 with handled_by := "Human" }, false, false, false, []⟩
      = (⟨{ freshRow 0 with handled_by := "Human" }, false, false, false, []⟩, [], false)
    ∧ (update_call_data true true 5 [.handled_byF "Human"] (freshRow 0)).handled_by
      = "Human" :=
  ⟨handled_by_monotone_within_connection.2.1 _ _ rfl,
   handled_by_monotone_within_connection.2.2.2 (some (freshRow 0)) 5 _ rfl⟩

/-- C2 counterexample: the INSERT ... ON CONFLICT upsert run when a session
re-connects (main.py lines 405-424) resets handled_by from Human back to AI,
so a re-connection of the same session_id resumes autonomous AI processing
without operator action. -/
theorem reconnect_resets_handled_by :
    ({ freshRow 0 with handled_by := "Human" } : CallRow).handled_by = "Human"
    ∧ (initUpsert 7 (some { freshRow 0 with handled_by := "Human" })).handled_by
      = "AI" :=
  ⟨rfl, rfl⟩

/-! ## Session-level status lemmas -/

theorem processTurnMain_transport (t : TurnInputs) (st : SessState)
    (hg : st.row.handled_by ≠ "Human") (hstt : t.stt = .transportError) :
    processTurnMain t st =
      ({ st with row := update_call_data true true 0 [.statusF "Error"] st.row },
       [.errorEv "STT service connection error."], true) := by
  unfold processTurnMain
  rw [if_neg hg, hstt]

theorem runLoopMain_fatal_turn (t : TurnInputs) (rest : List Inbound)
    (st : SessState) (hg : st.row.handled_by ≠ "Human")
    (hstt : t.stt = .transportError) :
    runLoopMain (.audio t :: rest) st =
      ({ st with row := update_call_data true true 0 [.statusF "Error"] st.row },
       [.errorEv "STT service connection error."]) := by
  simp only [runLoopMain, processTurnMain_transport t st hg hstt, if_true]

theorem callEndpointMain_final_status (msgs : List Inbound)
    (store : Option CallRow) (memory0 : List ChatMsg) (now : Nat) :
    ((callEndpointMain msgs store memory0 now).1).status = "Ended" := rfl

/-- C1 (amended): when a turn ends with an unrecoverable transport-level
error, the orchestrator emits the error event, terminates the session loop
(messages after the failing one are never processed), and persists status
Error at that moment; but the guaranteed-cleanup block then persists status
Ended unconditionally for every successfully-initialized session, so the
session status as it stands after the WebSocket handler has fully exited is
Ended for error terminations as well as clean ones — Error survives only if
the cleanup write itself fails. -/
theorem error_turn_finalization :
    (∀ (t : TurnInputs) (st : SessState) (rest : List Inbound),
      st.row.handled_by ≠ "Human" → t.stt = .transportError →
      runLoopMain (.audio t :: rest) st
        = ({ st with row := update_call_data true true 0 [.statusF "Error"] st.row },
           [.errorEv "STT service connection error."])
      ∧ (update_call_data true true 0 [.statusF "Error"] st.row).status = "Error")
    ∧ ∀ (msgs : List Inbound) (store : Option CallRow) (memory0 : List ChatMsg)
        (now : Nat),
      ((callEndpointMain msgs store memory0 now).1).status = "Ended" :=
  ⟨fun t st rest hg hstt => ⟨runLoopMain_fatal_turn t rest st hg hstt, rfl⟩,
   callEndpointMain_final_status⟩

/-- Witness for C1 at a fresh session and one transport-error turn. -/
theorem error_turn_finalization_witness :
    runLoopMain [.audio ⟨SttOutcome.transportError, none, none, none, none⟩]
        ⟨freshRow 0, false, false, false, []⟩
      = (⟨update_call_data true true 0 [.statusF "Error"] (freshRow 0),
          false, false, false, []⟩,
         [.errorEv "STT service connection error."])
    ∧ ((callEndpointMain [.audio ⟨SttOutcome.transportError, none, none, none, none⟩]
        none [] 3).1).status = "Ended" :=
  ⟨((error_turn_finalization.1 ⟨SttOutcome.transportError, none, none, none, none⟩
      ⟨freshRow 0, false, false, false, []⟩ [] (by decide) rfl).1),
   error_turn_finalization.2 [.audio ⟨SttOutcome.transportError, none, none, none, none⟩]
      none [] 3⟩

/-- C1 counterexample: for a session whose only turn raises a transport-level
STT error, the handler emits the error event and stops, but after the
guaranteed-cleanup block has run the persisted status is Ended, not Error —
the cleanup overwrites the Error status written by the failing turn. -/
theorem final_status_overwritten_to_ended :
    (callEndpointMain [.audio ⟨SttOutcome.transportError, none, none, none, none⟩]
        none [] 3).2
      = [.errorEv "STT service connection error."]
    ∧ ((callEndpointMain [.audio ⟨SttOutcome.transportError, none, none, none, none⟩]
        none [] 3).1).status = "Ended"
    ∧ ((callEndpointMain [.audio ⟨SttOutcome.transportError, none, none, none, none⟩]
        none [] 3).1).status ≠ "Error" := by
  refine ⟨rfl, rfl, by decide⟩

/-- C5: evaluation at the failing input. The partial-update helper called
with an empty field set — exactly the stage-10 liveness touch — returns the
row completely unchanged because of the early-return guard, so
last_update_time is not stamped; a call with a non-empty field set does stamp
it; and with the store unavailable or the write failing the helper returns
the row unchanged instead of raising. -/
theorem empty_update_is_noop :
    update_call_data true true 5 [] (freshRow 0) = freshRow 0
    ∧ (update_call_data true true 5 [] (freshRow 0)).last_update_time ≠ 5
    ∧ (update_call_data true true 5 [.statusF "Ended"] (freshRow 0)).last_update_time = 5
    ∧ update_call_data false true 5 [.statusF "Ended"] (freshRow 0) = freshRow 0
    ∧ update_call_data true false 5 [.statusF "Ended"] (freshRow 0) = freshRow 0 :=
  ⟨rfl, by decide, rfl, rfl, rfl⟩

/-! ## The takeover endpoint -/

theorem takeover_ok_inv (row : CallRow) (now : Nat) (r : CallRow)
    (h : takeover_call_endpoint (some row) now = .ok r) :
    row.status = "Active"
    ∧ r = update_call_data true true now [.handled_byF "Human"] row := by
  rw [takeover_call_endpoint] at h
  by_cases h1 : row.status = ""
  · rw [if_pos h1] at h; cases h
  · rw [if_neg h1] at h
    by_cases h2 : row.status ≠ "Active"
    · rw [if_pos h2] at h; cases h
    · rw [if_neg h2] at h
      cases h
      exact ⟨not_not.mp h2, rfl⟩

/-- C8: the takeover endpoint returns 404 for an unknown session, 400 when
the session status (one of the terminal statuses Ended or Error) is not
Active, and for an Active session it sets handled_by = Human while leaving
the status Active; a second takeover on the same still-Active session
succeeds again with handled_by = Human and no error. -/
theorem takeover_endpoint_spec :
    (∀ now : Nat, takeover_call_endpoint none now = .error 404)
    ∧ (∀ (row : CallRow) (now : Nat),
        row.status = "Ended" ∨ row.status = "Error" →
        takeover_call_endpoint (some row) now = .error 400)
    ∧ (∀ (row : CallRow) (now : Nat), row.status = "Active" →
        ∃ r, takeover_call_endpoint (some row) now = .ok r
          ∧ r.handled_by = "Human" ∧ r.status = "Active")
    ∧ (∀ (row : CallRow) (now now2 : Nat) (r : CallRow),
        takeover_call_endpoint (some row) now = .ok r →
        ∃ r2, takeover_call_endpoint (some r) now2 = .ok r2
          ∧ r2.handled_by = "Human") := by
  have hactive : ∀ (row : CallRow) (now : Nat), row.status = "Active" →
      ∃ r, takeover_call_endpoint (some row) now = .ok r
        ∧ r.handled_by = "Human" ∧ r.status = "Active" := by
    intro row now h
    refine ⟨update_call_data true true now [.handled_byF "Human"] row, ?_, rfl, ?_⟩
    · rw [takeover_call_endpoint, if_neg (by rw [h]; decide),
        if_neg (by rw [h]; decide)]
    · show row.status = "Active"
      exact h
  refine ⟨fun now => rfl, ?_, hactive, ?_⟩
  · intro row now h
    rcases h with h | h <;> rw [takeover_call_endpoint, h] <;> rfl
  · intro row now now2 r h
    rcases takeover_ok_inv row now r h with ⟨hact, hr⟩
    have hrstatus : r.status = "Active" := by
      rw [hr]
      show row.status = "Active"
      exact hact
    rcases hactive r now2 hrstatus with ⟨r2, h2, h3, _⟩
    exact ⟨r2, h2, h3⟩

/-- Witness for C8: the three outcomes at concrete rows, and the second
takeover after a first one. -/
theorem takeover_endpoint_spec_witness :
    takeover_call_endpoint none 0 = .error 404
    ∧ takeover_call_endpoint (some { freshRow 0 with status := "Ended" }) 1
      = .error 400
    ∧ (∃ r, takeover_call_endpoint (some (freshRow 0)) 5 = .ok r
        ∧ r.handled_by = "Human" ∧ r.status = "Active")
    ∧ ∃ r2, takeover_call_endpoint
          (some (update_call_data true true 5 [.handled_byF "Human"] (freshRow 0))) 6
        = .ok r2 ∧ r2.handled_by = "Human" :=
  ⟨takeover_endpoint_spec.1 0,
   takeover_endpoint_spec.2.1 _ 1 (Or.inl rfl),
   takeover_endpoint_spec.2.2.1 (freshRow 0) 5 rfl,
   takeover_endpoint_spec.2.2.2 (freshRow 0) 5 6 _ rfl⟩

/-! ## The /chat endpoint emotion contract -/

theorem allowedEmotion_resolveEmotion (u : String) (d : Option String) :
    allowedEmotion (resolveEmotion u d) = true := by
  unfold resolveEmotion
  split
  · decide
  · cases d with
    | none => decide
    | some r =>
      simp only []
      split
      · rename_i hC
        have hmem : lowerStr (stripStr r) ∈ validEmotions := by simpa using hC
        simp [allowedEmotion, hmem]
      · decide

/-- C10: for every /chat request whose dialogue-model call succeeds, the
request returns successfully — whatever the emotion-detection outcome,
including a raised exception — and the emotion field of the response is
always one of the ten allowed labels, or "unknown" (empty input or
unrecognized detector output), or "error" (emotion-detection failure). -/
theorem chat_emotion_always_allowed (memory : List ChatMsg) (input_text : String)
    (ovr : Option String) (raw : String) (detect : Option String) :
    (chatEndpoint memory input_text ovr (some raw) detect).1
      = .ok (stripStr raw, resolveEmotion (stripStr input_text) detect)
    ∧ allowedEmotion (resolveEmotion (stripStr input_text) detect) = true :=
  ⟨rfl, allowedEmotion_resolveEmotion _ _⟩

/-! ## The empty-transcript skip (stages 4-8) -/

theorem processTurnMain_routing_marker (t : TurnInputs) (st : SessState)
    (raw : String) (lang : Option String)
    (hg : st.row.handled_by ≠ "Human") (hstt : t.stt = .parsed raw lang) :
    ((processTurnMain t st).2.1).filter isRoutingEvent ≠ []
      ↔ stripStr raw ≠ "" := by
  unfold processTurnMain
  rw [if_neg hg, hstt]
  by_cases hE : stripStr raw = ""
  · simp [hE, isRoutingEvent]
  · simp [hE, isRoutingEvent]

theorem processTurnStt_routing_marker (t : TurnInputsStt) (st : SttSessState)
    (raw : String) (lang : Option String)
    (hg : st.row.handled_by ≠ "Human") (hstt : t.stt = .parsed raw lang) :
    ((processTurnStt t st).2.1).filter isRoutingEvent ≠ []
      ↔ ¬(stripStr raw = "" ∧ st.chat_history = []) := by
  unfold processTurnStt
  rw [if_neg hg, hstt]
  by_cases hE : stripStr raw = ""
  · by_cases hH : st.chat_history = []
    · simp [hE, hH, isRoutingEvent]
    · simp [hE, hH, isRoutingEvent]
  · simp [hE, isRoutingEvent]

/-- C7 (amended): after a successful STT stage, stages 4-8 — observed through
the routing_info event that stage 4 always sends when reached — are skipped
in the stt_translate.py coordinator exactly when the transcript is empty and
no prior conversation history exists (an empty transcript with prior history
still proceeds), while the main.py coordinator skips them whenever the
transcript is empty, regardless of any prior history. -/
theorem empty_transcript_skip_behavior :
    (∀ (t : TurnInputsStt) (st : SttSessState) (raw : String) (lang : Option String),
      st.row.handled_by ≠ "Human" → t.stt = .parsed raw lang →
      (((processTurnStt t st).2.1).filter isRoutingEvent ≠ []
        ↔ ¬(stripStr raw = "" ∧ st.chat_history = [])))
    ∧ (∀ (t : TurnInputs) (st : SessState) (raw : String) (lang : Option String),
      st.row.handled_by ≠ "Human" → t.stt = .parsed raw lang →
      (((processTurnMain t st).2.1).filter isRoutingEvent ≠ []
        ↔ stripStr raw ≠ "")) :=
  ⟨fun t st raw lang hg hstt => processTurnStt_routing_marker t st raw lang hg hstt,
   fun t st raw lang hg hstt => processTurnMain_routing_marker t st raw lang hg hstt⟩

/-- Witness for C7: an empty transcript with prior history proceeds through
stage 4 in the stt_translate.py variant, and a non-empty transcript proceeds
in the main.py variant. -/
theorem empty_transcript_skip_behavior_witness :
    (((processTurnStt ⟨SttOutcome.parsed "" none, some "Unknown", some "ok", none, none⟩
        ⟨freshRow 0, false, [ChatMsg.mk "user" "earlier"], false, false⟩).2.1).filter
          isRoutingEvent ≠ []
      ↔ ¬(stripStr "" = "" ∧ ([ChatMsg.mk "user" "earlier"] : List ChatMsg) = []))
    ∧ (((processTurnMain ⟨SttOutcome.parsed "hello" none, none, some "hi", none, none⟩
        ⟨freshRow 0, false, false, true, []⟩).2.1).filter isRoutingEvent ≠ []
      ↔ stripStr "hello" ≠ "") :=
  ⟨empty_transcript_skip_behavior.1 _ _ "" none (by decide) rfl,
   empty_transcript_skip_behavior.2 _ _ "hello" none (by decide) rfl⟩

/-- C7 counterexample: in main.py, an empty transcript is skipped even though
prior conversation history exists for the session — the turn emits only the
transcript event and no routing_info event, contradicting the claim that such
a turn still proceeds through stages 4-8. -/
theorem main_variant_skips_despite_history :
    (processTurnMain ⟨SttOutcome.parsed "" none, some "Fire Department", some "x",
        none, some "A"⟩
      ⟨freshRow 0, false, false, true, [ChatMsg.mk "user" "earlier"]⟩).2.1
      = [.transcriptEv ""]
    ∧ ([ChatMsg.mk "user" "earlier"] : List ChatMsg) ≠ [] :=
  ⟨rfl, by decide⟩

/-! ## Response-event emission -/

theorem respondStageMain_events (ai : String) (tts : Option String) (row : CallRow)
    (h1 : ai ≠ "") (h2 : ai.length ≤ 500) :
    (((respondStageMain ai tts row).1).filter isResponseEvent).length = 1
    ∧ ((((respondStageMain ai tts row).1).filter isAudioEvent).length = 1
        ↔ ∃ a, tts = some a ∧ a ≠ "") := by
  unfold respondStageMain
  rw [if_neg h1, if_neg (Nat.not_lt.mpr h2)]
  cases tts with
  | none =>
    constructor
    · simp [isResponseEvent]
    · simp [isAudioEvent]
  | some a =>
    simp only []
    by_cases ha : a = ""
    · rw [if_neg (not_not_intro ha)]
      constructor
      · simp [isResponseEvent]
      · simp [isAudioEvent, ha]
    · rw [if_pos ha]
      constructor
      · simp [isResponseEvent]
      · simp [isAudioEvent]
        exact ha

theorem respondStageStt_one_response (translated : String) (tts : Option String)
    (row : CallRow) :
    (((respondStageStt translated tts row).1).filter isResponseEvent).length = 1 := by
  unfold respondStageStt
  simp only []
  split
  · cases tts with
    | none => simp [isResponseEvent]
    | some a =>
      simp only []
      by_cases ha : a = ""
      · rw [if_neg (not_not_intro ha)]
        simp [isResponseEvent]
      · rw [if_pos ha]
        simp [isResponseEvent]
  · simp [isResponseEvent]

theorem processTurnMain_response_events (t : TurnInputs) (st : SessState)
    (raw : String) (lang : Option String)
    (hg : st.row.handled_by ≠ "Human") (hstt : t.stt = .parsed raw lang)
    (hNE : stripStr raw ≠ "")
    (hll : ∀ s, t.llama = some s → stripStr s ≠ "" ∧ (stripStr s).length ≤ 500) :
    (((processTurnMain t st).2.1).filter isResponseEvent).length = 1
    ∧ ((((processTurnMain t st).2.1).filter isAudioEvent).length = 1
        ↔ ∃ a, t.tts = some a ∧ a ≠ "") := by
  have hdial : ∀ (mem : List ChatMsg) (u sys : String) (detect : Option String),
      (dialogueStageMain mem u sys t.llama detect).1 ≠ ""
      ∧ ((dialogueStageMain mem u sys t.llama detect).1).length ≤ 500 := by
    intro mem u sys detect
    cases hl : t.llama with
    | none =>
      refine ⟨?_, ?_⟩
      · show APOLOGY_FALLBACK ≠ ""
        decide
      · show APOLOGY_FALLBACK.length ≤ 500
        decide
    | some s => exact hll s hl
  unfold processTurnMain
  rw [if_neg hg, hstt]
  simp only []
  rw [if_neg hNE]
  constructor
  · simp only [List.filter_append, List.filter_cons, List.filter_nil]
    simp only [isResponseEvent, List.nil_append, List.length_nil]
    exact (respondStageMain_events _ t.tts _ (hdial _ _ _ _).1 (hdial _ _ _ _).2).1
  · simp only [List.filter_append, List.filter_cons, List.filter_nil]
    simp only [isAudioEvent, List.nil_append, List.length_nil]
    exact (respondStageMain_events _ t.tts _ (hdial _ _ _ _).1 (hdial _ _ _ _).2).2

theorem processTurnStt_response_events (t : TurnInputsStt) (st : SttSessState)
    (raw : String) (lang : Option String)
    (hg : st.row.handled_by ≠ "Human") (hstt : t.stt = .parsed raw lang)
    (hns : ¬(stripStr raw = "" ∧ st.chat_history = [])) :
    (((processTurnStt t st).2.1).filter isResponseEvent).length = 1 := by
  unfold processTurnStt
  rw [if_neg hg, hstt]
  simp only []
  rw [if_neg (fun hc => hns ⟨hc.1, by
    have hb := hc.2
    rw [if_neg (not_not_intro hc.1)] at hb
    exact hb⟩)]
  simp only [List.filter_append, List.filter_cons, List.filter_nil]
  simp only [isResponseEvent, List.nil_append, List.length_nil]
  exact respondStageStt_one_response _ t.tts _

/-- C6 (amended): in the stt_translate.py coordinator, every turn that
completes the pipeline (gate open, STT succeeded, not skipped) sends exactly
one response event — audio or text, possibly with empty text. In the main.py
coordinator this holds for every turn whose dialogue stage yields non-empty
text of at most 500 characters (every dialogue failure substitutes the
non-empty apology, so this covers all failures), and the event is the audio
event exactly when synthesis succeeded with non-empty audio, a text-only
ai-response otherwise; but when the main.py dialogue stage returns empty
text, no response event at all is sent for that turn (see the
counterexample), and a reply longer than 500 characters aborts the turn
through the synthesis request validation. -/
theorem response_event_emission :
    (∀ (t : TurnInputs) (st : SessState) (raw : String) (lang : Option String),
      st.row.handled_by ≠ "Human" → t.stt = .parsed raw lang →
      stripStr raw ≠ "" →
      (∀ s, t.llama = some s → stripStr s ≠ "" ∧ (stripStr s).length ≤ 500) →
      (((processTurnMain t st).2.1).filter isResponseEvent).length = 1
      ∧ ((((processTurnMain t st).2.1).filter isAudioEvent).length = 1
          ↔ ∃ a, t.tts = some a ∧ a ≠ ""))
    ∧ (∀ (t : TurnInputsStt) (st : SttSessState) (raw : String) (lang : Option String),
      st.row.handled_by ≠ "Human" → t.stt = .parsed raw lang →
      ¬(stripStr raw = "" ∧ st.chat_history = []) →
      (((processTurnStt t st).2.1).filter isResponseEvent).length = 1) :=
  ⟨processTurnMain_response_events, processTurnStt_response_events⟩

/-- Witness for C6 at concrete turns of both coordinators. -/
theorem response_event_emission_witness :
    ((((processTurnMain
          ⟨SttOutcome.parsed "hello" none, none, some "Hi there", none, some "AUDIO"⟩
          ⟨freshRow 0, false, false, true, []⟩).2.1).filter isResponseEvent).length = 1
      ∧ ((((processTurnMain
          ⟨SttOutcome.parsed "hello" none, none, some "Hi there", none, some "AUDIO"⟩
          ⟨freshRow 0, false, false, true, []⟩).2.1).filter isAudioEvent).length = 1
          ↔ ∃ a, (some "AUDIO" : Option String) = some a ∧ a ≠ ""))
    ∧ (((processTurnStt
          ⟨SttOutcome.parsed "hello" none, none, some "ok", none, none⟩
          ⟨freshRow 0, false, [], false, false⟩).2.1).filter isResponseEvent).length
        = 1 :=
  ⟨response_event_emission.1 _ _ "hello" none (by decide) rfl (by decide)
     (fun s hs => by cases hs; exact ⟨by decide, by decide⟩),
   response_event_emission.2 _ _ "hello" none (by decide) rfl (by decide)⟩

/-- C6 counterexample: a main.py turn that completes the pipeline (gate open,
STT succeeded, non-empty transcript) but whose dialogue call succeeds with
empty text sends no response event at all — only the transcript and routing
events — even though synthesis would have returned audio. -/
theorem empty_dialogue_text_no_response_event :
    (processTurnMain
        ⟨SttOutcome.parsed "hello" none, none, some "", none, some "AUDIO"⟩
        ⟨freshRow 0, false, false, true, []⟩).2.1
      = [.transcriptEv "hello", .routingInfoEv "Unknown"]
    ∧ ((processTurnMain
        ⟨SttOutcome.parsed "hello" none, none, some "", none, some "AUDIO"⟩
        ⟨freshRow 0, false, false, true, []⟩).2.1).filter isResponseEvent = [] :=
  ⟨rfl, rfl⟩

end VoiceBot
